import Mathlib

/-!
Verification of the migraine-prediction backend.

The definitions below are shallow embeddings of the Python source files
`backend/sensorDataAi/simple_predict.py`, `backend/sensorDataAi/user_model_manager.py`,
`backend/sensorDataAi/data_utils.py`, `backend/sensorDataAi/predict.py`,
`backend/surveyModelGet.py` and `backend/api/routers/routes.py`.
Python floats are modelled as rationals; Python dicts as association lists.
-/

namespace Migraine

/-- The complete sensor feature vector for one day (the 10 keys of the sensor
schema, `user_model_manager.py` / `data_utils.py`). -/
structure Day where
  Screen_time_h : ℚ
  Average_heart_rate_bpm : ℚ
  Steps_and_activity : ℚ
  Sleep_h : ℚ
  Stress_level_0_100 : ℚ
  Respiration_rate_breaths_min : ℚ
  Saa_Temperature_average_C : ℚ
  Saa_Air_quality_0_5 : ℚ
  Received_Condition_0_3 : ℚ
  Received_Air_Pressure_hPa : ℚ
deriving DecidableEq

/-- Python `sum(1 for x in xs if p x)`. -/
def countIf (p : ℚ → Bool) : List ℚ → ℕ
  | [] => 0
  | x :: xs => (if p x then 1 else 0) + countIf p xs

/-- Number of poor-day indicators one day trips
(`simple_predict.py`, lines 158-166). -/
def poor_indicators (day : Day) : ℕ :=
  (if day.Sleep_h < 6.5 then 1 else 0) +
  (if day.Stress_level_0_100 > 70 then 1 else 0) +
  (if day.Steps_and_activity < 5000 then 1 else 0) +
  (if day.Screen_time_h > 8 then 1 else 0)

/-- The streaming loop of `simple_predict.py` lines 155-172: carries the
current run of consecutive poor days and the maximum run seen so far. -/
def poorRunLoop : List Day → ℕ → ℕ → ℕ
  | [], _, best => best
  | day :: rest, cur, best =>
    if poor_indicators day ≥ 2 then poorRunLoop rest (cur + 1) (max best (cur + 1))
    else poorRunLoop rest 0 best

/-- Function `_calculate_temporal_adjustment` (`simple_predict.py`, lines 128-207),
transcribed statement by statement.  (`avg_sleep` is computed by the source
with `np.mean` but never used, so it is omitted here.) -/
def calculate_temporal_adjustment (history_data : List Day) (today_data : Day) : ℚ :=
  let adjustment : ℚ := 0
  -- Sleep debt analysis
  let sleep_hours := (history_data.map (·.Sleep_h)) ++ [today_data.Sleep_h]
  let sleep_debt := max 0 (7.0 * (sleep_hours.length : ℚ) - sleep_hours.sum)
  let adjustment := if sleep_debt > 7 then adjustment + min 10 (sleep_debt * 1.0) else adjustment
  -- Stress accumulation
  let stress_levels := (history_data.map (·.Stress_level_0_100)) ++ [today_data.Stress_level_0_100]
  let high_stress_days := countIf (fun s => s > 70) stress_levels
  let adjustment :=
    if high_stress_days ≥ 3 then adjustment + min 8 ((high_stress_days : ℚ) * 2) else adjustment
  -- Consecutive poor days
  let max_consecutive := poorRunLoop (history_data ++ [today_data]) 0 0
  let adjustment :=
    if max_consecutive ≥ 3 then adjustment + min 15 ((max_consecutive : ℚ) * 4) else adjustment
  -- Activity decline trend
  let activities := (history_data.map (·.Steps_and_activity)) ++ [today_data.Steps_and_activity]
  -- `activities` is nonempty by construction, so the defaults of `getLastD` and
  -- `headD` (modelling Python `activities[-1]` and `activities[0]`) are unreachable
  let adjustment :=
    if activities.length ≥ 3 ∧ activities.getLastD 0 < activities.headD 0 * 0.6 then adjustment + 3
    else adjustment
  -- Screen time pattern
  let screen_times := (history_data.map (·.Screen_time_h)) ++ [today_data.Screen_time_h]
  let high_screen_days := countIf (fun st => st > 9) screen_times
  let adjustment :=
    if high_screen_days ≥ 4 then adjustment + min 5 ((high_screen_days : ℚ) * 1) else adjustment
  -- Heart rate elevation
  let heart_rates :=
    (history_data.map (·.Average_heart_rate_bpm)) ++ [today_data.Average_heart_rate_bpm]
  let elevated_hr_days := countIf (fun hr => hr > 78) heart_rates
  let adjustment :=
    if elevated_hr_days ≥ 4 then adjustment + min 5 ((elevated_hr_days : ℚ) * 1) else adjustment
  -- Very poor sleep pattern
  let very_poor_sleep_days := countIf (fun s => s < 5.5) sleep_hours
  let adjustment :=
    if very_poor_sleep_days ≥ 4 then adjustment + min 8 ((very_poor_sleep_days : ℚ) * 2)
    else adjustment
  -- Extreme stress
  let extreme_stress_days := countIf (fun s => s > 85) stress_levels
  let adjustment :=
    if extreme_stress_days ≥ 3 then adjustment + min 10 ((extreme_stress_days : ℚ) * 3)
    else adjustment
  adjustment

/-- Final probability of `predict_migraine` (`simple_predict.py`, lines 84-98):
the temporal adjustment is applied and clamped only when history is nonempty. -/
def final_probability (base_probability : ℚ) (history_data : List Day) (today_data : Day) : ℚ :=
  if history_data.length > 0 then
    min 100.0 (max 0.0 (base_probability + calculate_temporal_adjustment history_data today_data))
  else base_probability

/-- Risk-level discretization of `predict_migraine`
(`simple_predict.py`, lines 108-118). -/
def risk_level (final_prob : ℚ) : String :=
  if final_prob < 20 then "Very Low"
  else if final_prob < 40 then "Low"
  else if final_prob < 60 then "Moderate"
  else if final_prob < 80 then "High"
  else "Very High"

/-! ### Spec-side formulations of the eight temporal sub-rules

The following definitions follow the wording of the specification (and of the
claim under scrutiny); each is computed independently, untriggered rules
contribute 0.  `claimStressAccumulation` uses the threshold `stress ≥ 70`
stated by the spec; `specStressAccumulation` uses the strict `stress > 70`
of the source. -/

/-- Spec: total shortfall below 7h/day over history+today; if > 7, add
`min(10, shortfall*1.0)`. -/
def specSleepDebt (history : List Day) (today : Day) : ℚ :=
  let hours := (history ++ [today]).map (·.Sleep_h)
  let shortfall := max 0 (7.0 * (hours.length : ℚ) - hours.sum)
  if shortfall > 7 then min 10 (shortfall * 1.0) else 0

/-- Claim: days with stress ≥ 70; if count ≥ 3, add `min(8, count*2)`. -/
def claimStressAccumulation (history : List Day) (today : Day) : ℚ :=
  let c := countIf (fun s => s ≥ 70) ((history ++ [today]).map (·.Stress_level_0_100))
  if c ≥ 3 then min 8 ((c : ℚ) * 2) else 0

/-- Source variant of the stress-accumulation rule: strict `stress > 70`. -/
def specStressAccumulation (history : List Day) (today : Day) : ℚ :=
  let c := countIf (fun s => s > 70) ((history ++ [today]).map (·.Stress_level_0_100))
  if c ≥ 3 then min 8 ((c : ℚ) * 2) else 0

/-- Whether a day is "poor": it trips at least 2 of the four indicators. -/
def isPoorDay (d : Day) : Bool := decide (poor_indicators d ≥ 2)

/-- Length of the leading run of `true`s. -/
def leadRun : List Bool → ℕ
  | true :: rest => leadRun rest + 1
  | _ => 0

/-- Longest run of consecutive `true`s: the maximum, over all suffixes, of the
length of the leading run. -/
def longestRun : List Bool → ℕ
  | [] => 0
  | b :: rest => max (leadRun (b :: rest)) (longestRun rest)

/-- Spec: longest run of consecutive poor days across history+today; if the
run is ≥ 3, add `min(15, run*4)`. -/
def specConsecutivePoor (history : List Day) (today : Day) : ℚ :=
  let run := longestRun ((history ++ [today]).map isPoorDay)
  if run ≥ 3 then min 15 ((run : ℚ) * 4) else 0

/-- Spec: if ≥ 3 days are present and the final activity value is below 60% of
the first one, add a flat 3. -/
def specActivityDecline (history : List Day) (today : Day) : ℚ :=
  let activities := (history ++ [today]).map (·.Steps_and_activity)
  if activities.length ≥ 3 ∧ activities.getLastD 0 < activities.headD 0 * 0.6 then 3 else 0

/-- Spec: days with screen time > 9h; if count ≥ 4, add `min(5, count*1)`. -/
def specHighScreen (history : List Day) (today : Day) : ℚ :=
  let c := countIf (fun st => st > 9) ((history ++ [today]).map (·.Screen_time_h))
  if c ≥ 4 then min 5 ((c : ℚ) * 1) else 0

/-- Spec: days with heart rate > 78; if count ≥ 4, add `min(5, count*1)`. -/
def specElevatedHeartRate (history : List Day) (today : Day) : ℚ :=
  let c := countIf (fun hr => hr > 78) ((history ++ [today]).map (·.Average_heart_rate_bpm))
  if c ≥ 4 then min 5 ((c : ℚ) * 1) else 0

/-- Spec: days with sleep < 5.5h; if count ≥ 4, add `min(8, count*2)`. -/
def specVeryPoorSleep (history : List Day) (today : Day) : ℚ :=
  let c := countIf (fun s => s < 5.5) ((history ++ [today]).map (·.Sleep_h))
  if c ≥ 4 then min 8 ((c : ℚ) * 2) else 0

/-- Spec: days with stress > 85; if count ≥ 3, add `min(10, count*3)`. -/
def specExtremeStress (history : List Day) (today : Day) : ℚ :=
  let c := countIf (fun s => s > 85) ((history ++ [today]).map (·.Stress_level_0_100))
  if c ≥ 3 then min 10 ((c : ℚ) * 3) else 0

/-- Sum of the eight sub-rules as the claim states them (spec threshold
`stress ≥ 70` in the accumulation rule). -/
def claimRulesSum (history : List Day) (today : Day) : ℚ :=
  specSleepDebt history today + claimStressAccumulation history today +
  specConsecutivePoor history today + specActivityDecline history today +
  specHighScreen history today + specElevatedHeartRate history today +
  specVeryPoorSleep history today + specExtremeStress history today

/-- Sum of the eight sub-rules with the strict stress threshold of the source. -/
def srcRulesSum (history : List Day) (today : Day) : ℚ :=
  specSleepDebt history today + specStressAccumulation history today +
  specConsecutivePoor history today + specActivityDecline history today +
  specHighScreen history today + specElevatedHeartRate history today +
  specVeryPoorSleep history today + specExtremeStress history today

/-! ### The streaming poor-run loop computes the longest run -/

/-- Boolean version of the streaming loop. -/
def runLoop : List Bool → ℕ → ℕ → ℕ
  | [], _, best => best
  | b :: rest, cur, best =>
    if b then runLoop rest (cur + 1) (max best (cur + 1)) else runLoop rest 0 best

lemma poorRunLoop_eq_runLoop (l : List Day) :
    ∀ cur best, poorRunLoop l cur best = runLoop (l.map isPoorDay) cur best := by
  induction l with
  | nil => intro cur best; rfl
  | cons d rest ih =>
    intro cur best
    by_cases h : poor_indicators d ≥ 2
    · simp [poorRunLoop, runLoop, isPoorDay, h, ih]
    · simp [poorRunLoop, runLoop, isPoorDay, h, ih]

/-- The "maximum run" value that `runLoop` still has to discover, given that a
run of `cur` trues immediately precedes the remaining list. -/
def runRemainder (cur : ℕ) : List Bool → ℕ
  | [] => 0
  | true :: rest => max (cur + 1) (runRemainder (cur + 1) rest)
  | false :: rest => runRemainder 0 rest

lemma runLoop_eq_max_runRemainder :
    ∀ (l : List Bool) (cur best : ℕ), cur ≤ best →
      runLoop l cur best = max best (runRemainder cur l) := by
  intro l
  induction l with
  | nil => intro cur best h; simp [runLoop, runRemainder]
  | cons b rest ih =>
    intro cur best h
    cases b with
    | true =>
      have h1 : cur + 1 ≤ max best (cur + 1) := le_max_right _ _
      simp only [runLoop, if_true, runRemainder, ih _ _ h1]
      omega
    | false =>
      have h0 : (0 : ℕ) ≤ best := Nat.zero_le _
      simp only [runLoop, runRemainder, ih _ _ h0]
      simp

lemma leadRun_le_longestRun (l : List Bool) : leadRun l ≤ longestRun l := by
  cases l with
  | nil => simp [leadRun, longestRun]
  | cons b rest => exact le_trans (le_max_left _ _) (le_of_eq (longestRun.eq_2 b rest).symm)

/-- Whether the list starts with `true`. -/
def headTrue : List Bool → Bool
  | true :: _ => true
  | _ => false

lemma leadRun_headTrue (l : List Bool) :
    (headTrue l = true → 1 ≤ leadRun l) ∧ (headTrue l = false → leadRun l = 0) := by
  cases l with
  | nil => simp [headTrue, leadRun]
  | cons b rest => cases b with
    | true => simp [headTrue, leadRun]
    | false => simp [headTrue, leadRun]

lemma runRemainder_eq (l : List Bool) :
    ∀ cur, runRemainder cur l =
      max (if headTrue l then cur + leadRun l else 0) (longestRun l) := by
  induction l with
  | nil => intro cur; simp [runRemainder, headTrue, longestRun]
  | cons b rest ih =>
    intro cur
    cases b with
    | true =>
      have e1 : runRemainder cur (true :: rest) = max (cur + 1) (runRemainder (cur + 1) rest) :=
        rfl
      have e2 : headTrue (true :: rest) = true := rfl
      have e3 : leadRun (true :: rest) = leadRun rest + 1 := rfl
      have e4 : longestRun (true :: rest) =
          max (leadRun (true :: rest)) (longestRun rest) := rfl
      have ct : (true = true) = True := by simp
      have cf : (false = true) = False := by simp
      rw [e1, ih, e4, e2, e3]
      cases hh : headTrue rest with
      | true =>
        have h1 := (leadRun_headTrue rest).1 hh
        simp only [ct, if_true]
        omega
      | false =>
        have h0 := (leadRun_headTrue rest).2 hh
        rw [h0]
        simp only [ct, cf, if_true, if_false]
        omega
    | false =>
      have hlr : leadRun rest ≤ longestRun rest := leadRun_le_longestRun rest
      have ct : (true = true) = True := by simp
      have cf : (false = true) = False := by simp
      have e1 : runRemainder cur (false :: rest) = runRemainder 0 rest := rfl
      have e2 : headTrue (false :: rest) = false := rfl
      have e3 : leadRun (false :: rest) = 0 := rfl
      have e4 : longestRun (false :: rest) =
          max (leadRun (false :: rest)) (longestRun rest) := rfl
      rw [e1, ih, e4, e2, e3]
      cases hh : headTrue rest with
      | true =>
        simp only [ct, cf, if_true, if_false]
        omega
      | false =>
        have h0 := (leadRun_headTrue rest).2 hh
        rw [h0]
        simp only [cf, if_false]
        omega

/-- The streaming loop of the source computes exactly the longest run of
consecutive poor days. -/
lemma poorRunLoop_eq_longestRun (l : List Day) :
    poorRunLoop l 0 0 = longestRun (l.map isPoorDay) := by
  rw [poorRunLoop_eq_runLoop, runLoop_eq_max_runRemainder _ 0 0 le_rfl, runRemainder_eq]
  have h := leadRun_le_longestRun (l.map isPoorDay)
  cases hh : headTrue (l.map isPoorDay) with
  | true => simp only [hh, if_true]; omega
  | false =>
    have h0 := (leadRun_headTrue (l.map isPoorDay)).2 hh
    simp only [hh, h0]
    simp only [Bool.false_eq_true, if_false]
    omega

/-- Pulling a conditional increment out of a sequential accumulation. -/
lemma ite_accum (c : Prop) [Decidable c] (a x : ℚ) :
    (if c then a + x else a) = a + (if c then x else 0) := by
  split_ifs <;> ring

/-- The sequential accumulation of the source equals the sum of the eight
independently computed sub-rules (with the strict `> 70` stress threshold
the source uses). -/
lemma calculate_temporal_adjustment_eq_sum (history : List Day) (today : Day) :
    calculate_temporal_adjustment history today = srcRulesSum history today := by
  unfold calculate_temporal_adjustment srcRulesSum specSleepDebt specStressAccumulation
    specConsecutivePoor specActivityDecline specHighScreen specElevatedHeartRate
    specVeryPoorSleep specExtremeStress
  rw [poorRunLoop_eq_longestRun]
  simp only [List.map_append, List.map_cons, List.map_nil, ite_accum]
  ring

end Migraine

namespace Migraine

lemma countIf_singleton (p : ℚ → Bool) (x : ℚ) : countIf p [x] = if p x then 1 else 0 := by
  simp [countIf]

lemma countIf_singleton_le_one (p : ℚ → Bool) (x : ℚ) : countIf p [x] ≤ 1 := by
  rw [countIf_singleton]
  split_ifs <;> omega

lemma longestRun_singleton_le_one (b : Bool) : longestRun [b] ≤ 1 := by
  cases b <;> simp [longestRun, leadRun]

/-- With an empty history every sub-rule is untriggered (the single-day sleep
shortfall cannot exceed 7h once sleep is nonnegative), so the sum is 0. -/
lemma srcRulesSum_nil (today : Day) (h : 0 ≤ today.Sleep_h) :
    srcRulesSum [] today = 0 := by
  unfold srcRulesSum specSleepDebt specStressAccumulation specConsecutivePoor
    specActivityDecline specHighScreen specElevatedHeartRate specVeryPoorSleep specExtremeStress
  simp only [List.nil_append, List.map_cons, List.map_nil]
  rw [if_neg, if_neg, if_neg, if_neg, if_neg, if_neg, if_neg, if_neg]
  · norm_num
  · have := countIf_singleton_le_one (fun s => s > 85) today.Stress_level_0_100
    omega
  · have := countIf_singleton_le_one (fun s => s < 5.5) today.Sleep_h
    omega
  · have := countIf_singleton_le_one (fun hr => hr > 78) today.Average_heart_rate_bpm
    omega
  · have := countIf_singleton_le_one (fun st => st > 9) today.Screen_time_h
    omega
  · simp
  · have := longestRun_singleton_le_one (isPoorDay today)
    omega
  · have := countIf_singleton_le_one (fun s => s > 70) today.Stress_level_0_100
    omega
  · have hle : max 0 (7.0 * (([today.Sleep_h].length : ℕ) : ℚ) - [today.Sleep_h].sum) ≤ 7 := by
      refine max_le (by norm_num) ?_
      simp only [List.length_cons, List.length_nil, List.sum_cons, List.sum_nil]
      push_cast
      linarith
    simpa using not_lt.mpr hle

lemma calculate_temporal_adjustment_nil (today : Day) (h : 0 ≤ today.Sleep_h) :
    calculate_temporal_adjustment [] today = 0 := by
  rw [calculate_temporal_adjustment_eq_sum, srcRulesSum_nil today h]

end Migraine

namespace Migraine

lemma ite_min_bounds (c : Prop) [Decidable c] (cap x : ℚ) (hcap : 0 ≤ cap) (hx : 0 ≤ x) :
    0 ≤ (if c then min cap x else 0) ∧ (if c then min cap x else 0) ≤ cap := by
  split_ifs with hc
  · exact ⟨le_min hcap hx, min_le_left _ _⟩
  · exact ⟨le_rfl, hcap⟩

lemma specSleepDebt_bounds (h : List Day) (t : Day) :
    0 ≤ specSleepDebt h t ∧ specSleepDebt h t ≤ 10 := by
  unfold specSleepDebt
  exact ite_min_bounds _ _ _ (by norm_num) (mul_nonneg (le_max_left _ _) (by norm_num))

lemma specStressAccumulation_bounds (h : List Day) (t : Day) :
    0 ≤ specStressAccumulation h t ∧ specStressAccumulation h t ≤ 8 := by
  unfold specStressAccumulation
  exact ite_min_bounds _ _ _ (by norm_num) (by positivity)

lemma specConsecutivePoor_bounds (h : List Day) (t : Day) :
    0 ≤ specConsecutivePoor h t ∧ specConsecutivePoor h t ≤ 15 := by
  unfold specConsecutivePoor
  exact ite_min_bounds _ _ _ (by norm_num) (by positivity)

lemma specActivityDecline_bounds (h : List Day) (t : Day) :
    0 ≤ specActivityDecline h t ∧ specActivityDecline h t ≤ 3 := by
  simp only [specActivityDecline]
  split_ifs <;> norm_num

lemma specHighScreen_bounds (h : List Day) (t : Day) :
    0 ≤ specHighScreen h t ∧ specHighScreen h t ≤ 5 := by
  unfold specHighScreen
  exact ite_min_bounds _ _ _ (by norm_num) (by positivity)

lemma specElevatedHeartRate_bounds (h : List Day) (t : Day) :
    0 ≤ specElevatedHeartRate h t ∧ specElevatedHeartRate h t ≤ 5 := by
  unfold specElevatedHeartRate
  exact ite_min_bounds _ _ _ (by norm_num) (by positivity)

lemma specVeryPoorSleep_bounds (h : List Day) (t : Day) :
    0 ≤ specVeryPoorSleep h t ∧ specVeryPoorSleep h t ≤ 8 := by
  unfold specVeryPoorSleep
  exact ite_min_bounds _ _ _ (by norm_num) (by positivity)

lemma specExtremeStress_bounds (h : List Day) (t : Day) :
    0 ≤ specExtremeStress h t ∧ specExtremeStress h t ≤ 10 := by
  unfold specExtremeStress
  exact ite_min_bounds _ _ _ (by norm_num) (by positivity)

/-- The sum of the eight sub-rules is between 0 and the sum of the caps. -/
lemma srcRulesSum_bounds (h : List Day) (t : Day) :
    0 ≤ srcRulesSum h t ∧ srcRulesSum h t ≤ 64 := by
  have b1 := specSleepDebt_bounds h t
  have b2 := specStressAccumulation_bounds h t
  have b3 := specConsecutivePoor_bounds h t
  have b4 := specActivityDecline_bounds h t
  have b5 := specHighScreen_bounds h t
  have b6 := specElevatedHeartRate_bounds h t
  have b7 := specVeryPoorSleep_bounds h t
  have b8 := specExtremeStress_bounds h t
  unfold srcRulesSum
  constructor <;> linarith [b1.1, b1.2, b2.1, b2.2, b3.1, b3.2, b4.1, b4.2,
    b5.1, b5.2, b6.1, b6.2, b7.1, b7.2, b8.1, b8.2]

/-- A concrete day with stress exactly 70 and everything else benign. -/
def d70 : Day :=
  { Screen_time_h := 2
    Average_heart_rate_bpm := 60
    Steps_and_activity := 10000
    Sleep_h := 8
    Stress_level_0_100 := 70
    Respiration_rate_breaths_min := 16
    Saa_Temperature_average_C := 20
    Saa_Air_quality_0_5 := 1
    Received_Condition_0_3 := 0
    Received_Air_Pressure_hPa := 1013 }

/-- C1 counterexample.  On three days of stress exactly 70 (and otherwise benign
metrics) the source computes adjustment 0 (strict `stress > 70` threshold,
`simple_predict.py` line 149) while the eight-rule sum of the claim with its stated
`stress ≥ 70` threshold gives 6: the code is not the sum of the rules as the claim states them. -/
theorem C1_counterexample :
    calculate_temporal_adjustment [d70, d70] d70 ≠ claimRulesSum [d70, d70] d70 := by
  have hsrc : calculate_temporal_adjustment [d70, d70] d70 = 0 := by
    norm_num [calculate_temporal_adjustment, countIf, poorRunLoop, poor_indicators, d70]
  have hclaim : claimRulesSum [d70, d70] d70 = 6 := by
    norm_num [claimRulesSum, specSleepDebt, claimStressAccumulation, specConsecutivePoor,
      specActivityDecline, specHighScreen, specElevatedHeartRate, specVeryPoorSleep,
      specExtremeStress, countIf, isPoorDay, poor_indicators, longestRun, leadRun, d70]
  rw [hsrc, hclaim]
  norm_num

/-- C1 (amended): the temporal adjustment equals the sum of exactly eight
independently computed sub-rules with the exact thresholds and caps of the source —
identical to the claim except that the stress-accumulation rule counts days
with stress strictly greater than 70 (not ≥ 70); untriggered rules contribute
0 by definition, the adjustment is exactly 0 when the history is empty (for a
nonnegative sleep value), and the final probability is
`clamp(base + adjustment, 0, 100)` for a nonempty history and the unchanged
base probability for an empty one. -/
theorem C1_amended :
    (∀ (history : List Day) (today : Day),
      calculate_temporal_adjustment history today = srcRulesSum history today) ∧
    (∀ today : Day, 0 ≤ today.Sleep_h → calculate_temporal_adjustment [] today = 0) ∧
    (∀ (base : ℚ) (today : Day), final_probability base [] today = base) ∧
    (∀ (base : ℚ) (history : List Day) (today : Day), history ≠ [] →
      final_probability base history today =
        min 100 (max 0 (base + srcRulesSum history today))) := by
  refine ⟨calculate_temporal_adjustment_eq_sum, calculate_temporal_adjustment_nil, ?_, ?_⟩
  · intro base today
    simp [final_probability]
  · intro base history today hne
    have hlen : history.length > 0 := List.length_pos.mpr hne
    rw [final_probability, if_pos hlen, calculate_temporal_adjustment_eq_sum]
    norm_num

/-- C1 witness: the amended theorem applied at concrete inputs. -/
theorem C1_witness :
    calculate_temporal_adjustment [] d70 = 0 ∧
    final_probability 50 [d70] d70 = min 100 (max 0 (50 + srcRulesSum [d70] d70)) :=
  ⟨C1_amended.2.1 d70 (by norm_num [d70]),
   C1_amended.2.2.2 50 [d70] d70 (by simp)⟩

/-- C10: the temporal adjustment is always nonnegative and at most 64 (the sum
of the eight caps 10+8+15+3+5+5+8+10), so the multi-day final probability
before the 100-clamp is never below the base probability. -/
theorem C10_adjustment_bounds :
    ∀ (history : List Day) (today : Day),
      0 ≤ calculate_temporal_adjustment history today ∧
      calculate_temporal_adjustment history today ≤ 64 ∧
      ∀ base : ℚ, base ≤ max 0 (base + calculate_temporal_adjustment history today) := by
  intro history today
  have hb := srcRulesSum_bounds history today
  rw [calculate_temporal_adjustment_eq_sum]
  refine ⟨hb.1, hb.2, ?_⟩
  intro base
  exact le_max_of_le_right (le_add_of_nonneg_right hb.1)

end Migraine

namespace Migraine

/-- The ordered feature-name list stored by `UserModelManager`
(`user_model_manager.py`, lines 26-31). -/
def feature_names : List String :=
  ["Screen_time_h", "Average_heart_rate_bpm", "Steps_and_activity",
   "Sleep_h", "Stress_level_0_100", "Respiration_rate_breaths_min",
   "Saa_Temperature_average_C", "Saa_Air_quality_0_5",
   "Received_Condition_0_3", "Received_Air_Pressure_hPa"]

/-- Python `[data_dict[f] for f in fs]`: reads each key in the order of `fs`;
a missing key (Python `KeyError`) yields `none`. -/
def lookupAll (data_dict : List (String × ℚ)) : List String → Option (List ℚ)
  | [] => some []
  | f :: fs =>
    match data_dict.lookup f with
    | none => none
    | some v =>
      match lookupAll data_dict fs with
      | none => none
      | some vs => some (v :: vs)

/-- Method `UserModelManager.predict` (`user_model_manager.py`, lines 240-271) after
the model and scaler are loaded: features are read in `feature_names` order,
scaled, classified, smoothed toward the interior, converted to a percentage
and clamped.  `scaler` and `classifier` stand for the loaded scikit-learn
scaler and the random-forest positive-class probability, treated as
uninterpreted pure functions at this level. -/
def manager_predict (scaler : List ℚ → List ℚ) (classifier : List ℚ → ℚ)
    (data_dict : List (String × ℚ)) : Option ℚ :=
  match lookupAll data_dict feature_names with
  | none => none
  | some features =>
    let features_scaled := scaler features
    let raw_proba := classifier features_scaled
    let smoothing_factor : ℚ := 0.05
    let smoothed_proba := raw_proba * (1 - 2 * smoothing_factor) + smoothing_factor
    let probability := smoothed_proba * 100
    some (max 0.0 (min 100.0 probability))

/-- A complete, in-order sensor feature dictionary used as a concrete input. -/
def sampleVector : List (String × ℚ) :=
  [("Screen_time_h", 2), ("Average_heart_rate_bpm", 60), ("Steps_and_activity", 10000),
   ("Sleep_h", 8), ("Stress_level_0_100", 30), ("Respiration_rate_breaths_min", 16),
   ("Saa_Temperature_average_C", 20), ("Saa_Air_quality_0_5", 1),
   ("Received_Condition_0_3", 0), ("Received_Air_Pressure_hPa", 1013)]

/-- C2: for any raw classifier probability in [0,1], the prediction is the
smoothed value `raw*(1-2s)+s` with `s = 0.05` converted to a percentage, and
it always lies in [5, 95] (so it never touches 0 or 100). -/
theorem C2_probability_smoothing :
    ∀ (scaler : List ℚ → List ℚ) (classifier : List ℚ → ℚ)
      (data_dict : List (String × ℚ)) (features : List ℚ),
      lookupAll data_dict feature_names = some features →
      0 ≤ classifier (scaler features) → classifier (scaler features) ≤ 1 →
      manager_predict scaler classifier data_dict =
        some ((classifier (scaler features) * (1 - 2 * 0.05) + 0.05) * 100) ∧
      5 ≤ (classifier (scaler features) * (1 - 2 * 0.05) + 0.05) * 100 ∧
      (classifier (scaler features) * (1 - 2 * 0.05) + 0.05) * 100 ≤ 95 := by
  intro scaler classifier data_dict features hlk h0 h1
  have hlo : (5:ℚ) ≤ (classifier (scaler features) * (1 - 2 * 0.05) + 0.05) * 100 := by
    nlinarith
  have hhi : (classifier (scaler features) * (1 - 2 * 0.05) + 0.05) * 100 ≤ 95 := by
    nlinarith
  refine ⟨?_, hlo, hhi⟩
  unfold manager_predict
  rw [hlk]
  dsimp only
  congr 1
  rw [min_eq_right (by linarith), max_eq_right (by linarith)]

/-- C2 witness: a concrete classifier returning 1/2 on the sample vector. -/
theorem C2_witness :
    manager_predict (fun v => v) (fun _ => 1/2) sampleVector =
      some ((((1:ℚ)/2) * (1 - 2 * 0.05) + 0.05) * 100) :=
  (C2_probability_smoothing (fun v => v) (fun _ => 1/2) sampleVector
    [2, 60, 10000, 8, 30, 16, 20, 1, 0, 1013] (by rfl) (by norm_num) (by norm_num)).1

end Migraine

namespace Migraine

/-- Two association lists that are permutations of one another with duplicate-free
keys agree on every lookup. -/
lemma lookup_eq_of_perm :
    ∀ {l1 l2 : List (String × ℚ)}, l1.Perm l2 →
      (l1.map Prod.fst).Nodup → ∀ k, l1.lookup k = l2.lookup k := by
  intro l1 l2 hp
  induction hp with
  | nil => intro _ _; rfl
  | cons x p ih =>
    rename_i t1 t2
    intro hn k
    obtain ⟨a, av⟩ := x
    have hml : List.map Prod.fst ((a, av) :: t1) = a :: t1.map Prod.fst := rfl
    rw [hml] at hn
    have hn' : (t1.map Prod.fst).Nodup := (List.nodup_cons.mp hn).2
    by_cases hk : k = a
    · subst hk
      simp [List.lookup]
    · have hkb : (k == a) = false := by simpa using hk
      simp [List.lookup, hkb, ih hn' k]
  | swap x y l =>
    intro hn k
    obtain ⟨a, av⟩ := x
    obtain ⟨b, bv⟩ := y
    have hml : List.map Prod.fst ((b, bv) :: (a, av) :: l) = b :: a :: l.map Prod.fst := rfl
    rw [hml] at hn
    have hab : b ≠ a := by
      have h1 := (List.nodup_cons.mp hn).1
      intro hba
      exact h1 (by simp [hba])
    by_cases hk1 : k = a <;> by_cases hk2 : k = b
    · exact absurd (hk2.symm.trans hk1) hab
    · subst hk1
      have hkb : (k == b) = false := by simpa using hk2
      simp [List.lookup, hkb]
    · subst hk2
      have hka : (k == a) = false := by simpa using hk1
      simp [List.lookup, hka]
    · have hka : (k == a) = false := by simpa using hk1
      have hkb : (k == b) = false := by simpa using hk2
      simp [List.lookup, hka, hkb]
  | trans p1 p2 ih1 ih2 =>
    intro hn k
    have hn2 : _ := ((p1.map Prod.fst).nodup_iff).mp hn
    exact (ih1 hn k).trans (ih2 hn2 k)

lemma lookupAll_congr {d1 d2 : List (String × ℚ)}
    (h : ∀ k, d1.lookup k = d2.lookup k) :
    ∀ fs : List String, lookupAll d1 fs = lookupAll d2 fs := by
  intro fs
  induction fs with
  | nil => rfl
  | cons f fs ih => simp only [lookupAll, h f, ih]

/-- C7: prediction is deterministic and order-independent — two feature
dictionaries equal as key-value mappings (permutations with duplicate-free
keys) give the identical probability, because `manager_predict` reads values
in the stored `feature_names` order, not the insertion order of the input. -/
theorem C7_order_independent :
    ∀ (scaler : List ℚ → List ℚ) (classifier : List ℚ → ℚ)
      (d1 d2 : List (String × ℚ)),
      d1.Perm d2 → (d1.map Prod.fst).Nodup →
      manager_predict scaler classifier d1 = manager_predict scaler classifier d2 := by
  intro scaler classifier d1 d2 hp hn
  unfold manager_predict
  rw [lookupAll_congr (lookup_eq_of_perm hp hn) feature_names]

/-- C7 witness: the sample vector against its reversal. -/
theorem C7_witness :
    manager_predict (fun v => v) (fun _ => 1/2) sampleVector =
      manager_predict (fun v => v) (fun _ => 1/2) sampleVector.reverse :=
  C7_order_independent (fun v => v) (fun _ => 1/2) sampleVector sampleVector.reverse
    (List.reverse_perm sampleVector).symm (by decide)

end Migraine

namespace Migraine

/-- One stored record: a Python dict row of a per-user CSV file. -/
abbrev Rec := List (String × ℚ)

/-- The per-user data store: user id → ordered CSV rows.  A missing entry
models a missing `user_{id}_data.csv` file. -/
abbrev DataStore := List (ℤ × List Rec)

/-- Python dict assignment `d[k] = v` (overwrite in place if the key exists,
append otherwise); also used for the keyed file stores. -/
def setKey {κ β : Type} [BEq κ] [DecidableEq κ] (d : List (κ × β)) (k : κ) (v : β) :
    List (κ × β) :=
  if (d.lookup k).isSome then d.map (fun p => if p.1 = k then (k, v) else p) else d ++ [(k, v)]

lemma lookup_map_replace_self {κ β : Type} [BEq κ] [LawfulBEq κ] [DecidableEq κ]
    (d : List (κ × β)) (k : κ) (v : β) (h : (d.lookup k).isSome) :
    (d.map (fun p => if p.1 = k then (k, v) else p)).lookup k = some v := by
  induction d with
  | nil => simp [List.lookup] at h
  | cons p t ih =>
    rw [List.map_cons]
    by_cases hp : p.1 = k
    · rw [if_pos hp]
      simp [List.lookup]
    · rw [if_neg hp]
      have hk : (k == p.1) = false := by
        simp only [beq_eq_false_iff_ne, ne_eq]
        exact fun hkk => hp hkk.symm
      have h' : (t.lookup k).isSome := by
        simpa [List.lookup, hk] using h
      simp [List.lookup, hk, ih h']

lemma lookup_map_replace_ne {κ β : Type} [BEq κ] [LawfulBEq κ] [DecidableEq κ]
    (d : List (κ × β)) (k : κ) (v : β) (k2 : κ) (h : k2 ≠ k) :
    (d.map (fun p => if p.1 = k then (k, v) else p)).lookup k2 = d.lookup k2 := by
  induction d with
  | nil => rfl
  | cons p t ih =>
    rw [List.map_cons]
    by_cases hp : p.1 = k
    · rw [if_pos hp]
      have hk : (k2 == k) = false := by simpa using h
      have hk2 : (k2 == p.1) = false := by rw [hp]; exact hk
      simp [List.lookup, hk, hk2, ih]
    · rw [if_neg hp]
      by_cases hq : (k2 == p.1) = true
      · simp [List.lookup, hq]
      · have hq' : (k2 == p.1) = false := by simpa using hq
        simp [List.lookup, hq', ih]

lemma lookup_append_single_of_none {κ β : Type} [BEq κ] [LawfulBEq κ]
    (d : List (κ × β)) (k : κ) (v : β) (h : d.lookup k = none) :
    (d ++ [(k, v)]).lookup k = some v := by
  induction d with
  | nil => simp [List.lookup]
  | cons p t ih =>
    by_cases hp : (k == p.1) = true
    · simp [List.lookup, hp] at h
    · have hp' : (k == p.1) = false := by simpa using hp
      have h' : t.lookup k = none := by simpa [List.lookup, hp'] using h
      simp [List.lookup, hp', ih h']

lemma lookup_append_single_ne {κ β : Type} [BEq κ] [LawfulBEq κ]
    (d : List (κ × β)) (k : κ) (v : β) (k2 : κ) (h : k2 ≠ k) :
    (d ++ [(k, v)]).lookup k2 = d.lookup k2 := by
  induction d with
  | nil =>
    have hk : (k2 == k) = false := by simpa using h
    simp [List.lookup, hk]
  | cons p t ih =>
    by_cases hp : (k2 == p.1) = true
    · simp [List.lookup, hp]
    · have hp' : (k2 == p.1) = false := by simpa using hp
      simp [List.lookup, hp', ih]

lemma setKey_lookup_self {κ β : Type} [BEq κ] [LawfulBEq κ] [DecidableEq κ]
    (d : List (κ × β)) (k : κ) (v : β) : (setKey d k v).lookup k = some v := by
  unfold setKey
  split_ifs with h
  · exact lookup_map_replace_self d k v h
  · exact lookup_append_single_of_none d k v (Option.not_isSome_iff_eq_none.mp h)

lemma setKey_lookup_ne {κ β : Type} [BEq κ] [LawfulBEq κ] [DecidableEq κ]
    (d : List (κ × β)) (k : κ) (v : β) (k2 : κ) (h : k2 ≠ k) :
    (setKey d k v).lookup k2 = d.lookup k2 := by
  unfold setKey
  split_ifs with hs
  · exact lookup_map_replace_ne d k v k2 h
  · exact lookup_append_single_ne d k v k2 h

/-- Method `UserModelManager.save_user_data` (`user_model_manager.py`, lines 80-115):
requires the label field, adds `UserID` and `Timestamp` (the wall clock is the
`now` parameter), requires every sensor feature, appends the record to the
rows of the user and returns the new total row count. -/
def save_user_data (now : ℚ) (store : DataStore) (user_id : ℤ) (data_dict : Rec) :
    Except String (DataStore × ℕ) :=
  if data_dict.lookup "Migraine_today_0_or_1" = none then
    Except.error "Training data must include Migraine_today_0_or_1 field"
  else
    let record := setKey (setKey data_dict "UserID" (user_id : ℚ)) "Timestamp" now
    match feature_names.find? (fun f => (record.lookup f).isNone) with
    | some f => Except.error ("Missing required feature: " ++ f)
    | none =>
      let rows := ((store.lookup user_id).getD []) ++ [record]
      Except.ok (setKey store user_id rows, rows.length)

end Migraine

namespace Migraine

/-- C8: appending a labeled record (label and all 10 feature keys present)
appends exactly one row for that user — the new row sequence is the old one
plus the new record, whose fields (label included) are those supplied — the
returned total count is the previous count plus one, and no rows of other users
change. -/
theorem C8_append_roundtrip :
    ∀ (now : ℚ) (store : DataStore) (user_id : ℤ) (data_dict : Rec),
      (data_dict.lookup "Migraine_today_0_or_1").isSome →
      (∀ f ∈ feature_names, (data_dict.lookup f).isSome) →
      ∃ (store2 : DataStore) (record : Rec),
        save_user_data now store user_id data_dict =
          Except.ok (store2, ((store.lookup user_id).getD []).length + 1) ∧
        store2.lookup user_id = some (((store.lookup user_id).getD []) ++ [record]) ∧
        (((store.lookup user_id).getD []) ++ [record]).getLast? = some record ∧
        record.lookup "Migraine_today_0_or_1" = data_dict.lookup "Migraine_today_0_or_1" ∧
        (∀ f ∈ feature_names, record.lookup f = data_dict.lookup f) ∧
        (∀ uid2 : ℤ, uid2 ≠ user_id → store2.lookup uid2 = store.lookup uid2) := by
  intro now store user_id data_dict hlab hfeat
  have hnames : ∀ f ∈ feature_names, f ≠ "UserID" ∧ f ≠ "Timestamp" := by decide
  have hlabne : ("Migraine_today_0_or_1" : String) ≠ "UserID" ∧
      ("Migraine_today_0_or_1" : String) ≠ "Timestamp" := by decide
  set record := setKey (setKey data_dict "UserID" ((user_id : ℚ))) "Timestamp" now with hrec
  have hrecf : ∀ f ∈ feature_names, record.lookup f = data_dict.lookup f := by
    intro f hf
    rw [hrec, setKey_lookup_ne _ _ _ _ (hnames f hf).2, setKey_lookup_ne _ _ _ _ (hnames f hf).1]
  have hreclab : record.lookup "Migraine_today_0_or_1" =
      data_dict.lookup "Migraine_today_0_or_1" := by
    rw [hrec, setKey_lookup_ne _ _ _ _ hlabne.2, setKey_lookup_ne _ _ _ _ hlabne.1]
  have hfind : feature_names.find? (fun f => (record.lookup f).isNone) = none := by
    rw [List.find?_eq_none]
    intro f hf
    have h2 := hfeat f hf
    rw [hrecf f hf]
    intro hcon
    rw [Option.isNone_iff_eq_none] at hcon
    rw [hcon] at h2
    simp at h2
  have hlabne2 : data_dict.lookup "Migraine_today_0_or_1" ≠ none :=
    Option.isSome_iff_ne_none.mp hlab
  refine ⟨setKey store user_id (((store.lookup user_id).getD []) ++ [record]), record, ?_, ?_, ?_, hreclab, hrecf, ?_⟩
  · unfold save_user_data
    rw [if_neg hlabne2]
    dsimp only
    rw [← hrec, hfind]
    simp
  · exact setKey_lookup_self _ _ _
  · simp
  · intro uid2 hne
    exact setKey_lookup_ne _ _ _ _ hne

/-- A labeled complete sample record. -/
def labeledSample : Rec := sampleVector ++ [("Migraine_today_0_or_1", 1)]

/-- C8 witness: the round-trip theorem at a concrete empty store. -/
theorem C8_witness :
    ∃ (store2 : DataStore) (record : Rec),
      save_user_data 0 [] 123 labeledSample =
        Except.ok (store2, ((([] : DataStore).lookup 123).getD []).length + 1) ∧
      store2.lookup 123 = some (((([] : DataStore).lookup 123).getD []) ++ [record]) ∧
      (((([] : DataStore).lookup 123).getD []) ++ [record]).getLast? = some record ∧
      record.lookup "Migraine_today_0_or_1" = labeledSample.lookup "Migraine_today_0_or_1" ∧
      (∀ f ∈ feature_names, record.lookup f = labeledSample.lookup f) ∧
      (∀ uid2 : ℤ, uid2 ≠ 123 → store2.lookup uid2 = (([] : DataStore).lookup uid2)) :=
  C8_append_roundtrip 0 [] 123 labeledSample (by decide) (by decide)

end Migraine

namespace Migraine

/-- The failure modes of `UserModelManager.train_user_model`
(`user_model_manager.py`, lines 117-155): a missing data file
(`FileNotFoundError`, line 123), too few rows (`ValueError`, line 130,
reporting the current count against the minimum), and a single label class
(`ValueError`, line 152, reporting both class counts). -/
inductive TrainError where
  | noDataFile (user_id : ℤ)
  | insufficientData (current min_points : ℕ)
  | singleClass (migraine_count no_migraine_count : ℕ)
deriving DecidableEq

/-- Method `UserModelManager.train_user_model` (`user_model_manager.py`,
lines 117-238).  `fit` stands for the scikit-learn pipeline that fits the
scaler and the regularized random forest on the feature matrix and labels; it
is only invoked after every validation has passed.  The function returns the
(possibly updated) model store together with either the row count of the
training run or the error raised.  Rows written by `save_user_data` always
contain every feature column, so the `getD` defaults are unreachable on
reachable stores. -/
def train_user_model {μ : Type} (fit : List (List ℚ) → List ℚ → μ)
    (data_store : DataStore) (model_store : List (ℤ × μ)) (user_id : ℤ)
    (min_data_points : ℕ) : List (ℤ × μ) × Except TrainError ℕ :=
  match data_store.lookup user_id with
  | none => (model_store, Except.error (TrainError.noDataFile user_id))
  | some rows =>
    if rows.length < min_data_points then
      (model_store, Except.error (TrainError.insufficientData rows.length min_data_points))
    else
      let X := rows.map (fun r => (lookupAll r feature_names).getD [])
      let y := rows.map (fun r => (r.lookup "Migraine_today_0_or_1").getD 0)
      let migraine_count := countIf (fun v => v == 1) y
      let no_migraine_count := countIf (fun v => v == 0) y
      if migraine_count = 0 ∨ no_migraine_count = 0 then
        (model_store, Except.error (TrainError.singleClass migraine_count no_migraine_count))
      else
        (setKey model_store user_id (fit X y), Except.ok rows.length)

lemma countIf_eq_length (p : ℚ → Bool) (l : List ℚ) (h : ∀ x ∈ l, p x = true) :
    countIf p l = l.length := by
  induction l with
  | nil => rfl
  | cons x xs ih =>
    have hx := h x (by simp)
    simp only [countIf, hx, if_true, ih (fun z hz => h z (by simp [hz])), List.length_cons]
    omega

lemma countIf_eq_zero (p : ℚ → Bool) (l : List ℚ) (h : ∀ x ∈ l, p x = false) :
    countIf p l = 0 := by
  induction l with
  | nil => rfl
  | cons x xs ih =>
    have hx := h x (by simp)
    simp [countIf, hx, ih (fun z hz => h z (by simp [hz]))]

/-- C5: with a dataset of fewer than 10 labeled rows, training always fails
with the insufficient-data error carrying the current count and the minimum
10; with at least 10 rows all labeled identically it always fails with the
single-class error; in both cases the model store is returned unchanged (no
model is trained or replaced). -/
theorem C5_training_guards :
    ∀ {μ : Type} (fit : List (List ℚ) → List ℚ → μ) (data_store : DataStore)
      (model_store : List (ℤ × μ)) (user_id : ℤ) (rows : List Rec),
      data_store.lookup user_id = some rows →
      (rows.length < 10 →
        train_user_model fit data_store model_store user_id 10 =
          (model_store, Except.error (TrainError.insufficientData rows.length 10))) ∧
      (10 ≤ rows.length →
        (∀ r ∈ rows, (r.lookup "Migraine_today_0_or_1").getD 0 = 1) →
        train_user_model fit data_store model_store user_id 10 =
          (model_store, Except.error (TrainError.singleClass rows.length 0))) ∧
      (10 ≤ rows.length →
        (∀ r ∈ rows, (r.lookup "Migraine_today_0_or_1").getD 0 = 0) →
        train_user_model fit data_store model_store user_id 10 =
          (model_store, Except.error (TrainError.singleClass 0 rows.length))) := by
  intro μ fit data_store model_store user_id rows hrows
  refine ⟨?_, ?_, ?_⟩
  · intro hlt
    unfold train_user_model
    rw [hrows]
    simp [hlt]
  · intro hge hall
    unfold train_user_model
    rw [hrows]
    dsimp only
    rw [if_neg (by omega)]
    have h1 : countIf (fun v => v == 1) (rows.map (fun r => (r.lookup "Migraine_today_0_or_1").getD 0)) = rows.length := by
      rw [countIf_eq_length]
      · simp
      · intro x hx
        obtain ⟨r, hr, hxr⟩ := List.mem_map.mp hx
        simp [← hxr, hall r hr]
    have h0 : countIf (fun v => v == 0) (rows.map (fun r => (r.lookup "Migraine_today_0_or_1").getD 0)) = 0 := by
      rw [countIf_eq_zero]
      intro x hx
      obtain ⟨r, hr, hxr⟩ := List.mem_map.mp hx
      simp [← hxr, hall r hr]
    rw [h1, h0]
    simp
  · intro hge hall
    unfold train_user_model
    rw [hrows]
    dsimp only
    rw [if_neg (by omega)]
    have h1 : countIf (fun v => v == 1) (rows.map (fun r => (r.lookup "Migraine_today_0_or_1").getD 0)) = 0 := by
      rw [countIf_eq_zero]
      intro x hx
      obtain ⟨r, hr, hxr⟩ := List.mem_map.mp hx
      simp [← hxr, hall r hr]
    have h0 : countIf (fun v => v == 0) (rows.map (fun r => (r.lookup "Migraine_today_0_or_1").getD 0)) = rows.length := by
      rw [countIf_eq_length]
      · simp
      · intro x hx
        obtain ⟨r, hr, hxr⟩ := List.mem_map.mp hx
        simp [← hxr, hall r hr]
    rw [h1, h0]
    simp

/-- A store with three labeled rows and one with ten identically-labeled rows. -/
def smallStore : DataStore := [(123, List.replicate 3 labeledSample)]

def singleClassStore : DataStore := [(123, List.replicate 10 labeledSample)]

/-- C5 witness: both failure modes at concrete stores with an empty model
store, which stays empty. -/
theorem C5_witness :
    train_user_model (fun _ _ => ()) smallStore [] 123 10 =
      ([], Except.error (TrainError.insufficientData (List.replicate 3 labeledSample).length 10)) ∧
    train_user_model (fun _ _ => ()) singleClassStore [] 123 10 =
      ([], Except.error
        (TrainError.singleClass (List.replicate 10 labeledSample).length 0)) :=
  ⟨(C5_training_guards (fun _ _ => ()) smallStore [] 123 (List.replicate 3 labeledSample)
      (by decide)).1 (by decide),
   (C5_training_guards (fun _ _ => ()) singleClassStore [] 123 (List.replicate 10 labeledSample)
      (by decide)).2.1 (by decide) (by decide)⟩

end Migraine

namespace Migraine

/-- Table `DataValidator.FEATURE_RANGES` (`data_utils.py`, lines 20-31). -/
def FEATURE_RANGES : List (String × ℚ × ℚ) :=
  [("Screen_time_h", 0, 24),
   ("Average_heart_rate_bpm", 40, 200),
   ("Steps_and_activity", 0, 50000),
   ("Sleep_h", 0, 24),
   ("Stress_level_0_100", 0, 100),
   ("Respiration_rate_breaths_min", 8, 30),
   ("Saa_Temperature_average_C", -20, 50),
   ("Saa_Air_quality_0_5", 0, 5),
   ("Received_Condition_0_3", 0, 3),
   ("Received_Air_Pressure_hPa", 950, 1050)]

/-- List `DataValidator.REQUIRED_FEATURES`, the keys of the range table. -/
def REQUIRED_FEATURES : List String := FEATURE_RANGES.map Prod.fst

/-- Python `", ".join(l)`. -/
def joinComma : List String → String
  | [] => ""
  | [s] => s
  | s :: rest => s ++ ", " ++ joinComma rest

/-- Method `DataValidator.validate_input` (`data_utils.py`, lines 35-60): one error
naming every missing required key, then one error per out-of-range value in
input order; returns (no errors, error list).  The function only reads its
input. -/
def validate_input (data : Rec) : Bool × List String :=
  let missing := REQUIRED_FEATURES.filter (fun f => (data.lookup f).isNone)
  let missingErrors : List String :=
    if missing.isEmpty then [] else ["Missing features: " ++ joinComma missing]
  let rangeErrors := data.filterMap (fun p =>
    match FEATURE_RANGES.lookup p.1 with
    | some (lo, hi) =>
      if lo ≤ p.2 ∧ p.2 ≤ hi then none
      else some (p.1 ++ " = " ++ toString p.2 ++ " is outside valid range [" ++
        toString lo ++ ", " ++ toString hi ++ "]")
    | none => none)
  let errors := missingErrors ++ rangeErrors
  (errors.isEmpty, errors)

/-- Whether `needle` occurs contiguously inside `hay`. -/
def strContains (hay needle : String) : Prop :=
  ∃ p q : List Char, hay.data = p ++ needle.data ++ q

lemma joinComma_contains :
    ∀ (l : List String) (f : String), f ∈ l →
      ∃ p q : List Char, (joinComma l).data = p ++ f.data ++ q := by
  intro l
  induction l with
  | nil => intro f hf; simp at hf
  | cons s rest ih =>
    intro f hf
    cases rest with
    | nil =>
      have hfs : f = s := by simpa using hf
      subst hfs
      exact ⟨[], [], by simp [joinComma]⟩
    | cons r t =>
      rcases List.mem_cons.mp hf with hfs | hfr
      · subst hfs
        refine ⟨[], (", " ++ joinComma (r :: t)).data, ?_⟩
        show (f ++ ", " ++ joinComma (r :: t)).data = [] ++ f.data ++ (", " ++ joinComma (r :: t)).data
        simp [String.data_append, List.append_assoc]
      · obtain ⟨p, q, hpq⟩ := ih f hfr
        refine ⟨s.data ++ (", " : String).data ++ p, q, ?_⟩
        show (s ++ ", " ++ joinComma (r :: t)).data = _
        simp [String.data_append, hpq, List.append_assoc]

/-- C6: a feature vector containing every required key with in-range values
validates to `(True, [])`; a vector missing a required key yields ok = False
with the missing key named inside the problems list.  (`validate_input` is a
pure function of its input in this embedding, matching the source, which
never writes to `data`.) -/
theorem C6_validate :
    (∀ data : Rec,
      (∀ f ∈ REQUIRED_FEATURES, (data.lookup f).isSome) →
      (∀ p ∈ data,
        (FEATURE_RANGES.lookup p.1).all (fun r => decide (r.1 ≤ p.2 ∧ p.2 ≤ r.2)) = true) →
      validate_input data = (true, [])) ∧
    (∀ (data : Rec) (f : String), f ∈ REQUIRED_FEATURES → data.lookup f = none →
      (validate_input data).1 = false ∧
      ∃ msg ∈ (validate_input data).2, strContains msg f) := by
  constructor
  · intro data hkeys hrange
    unfold validate_input
    have hmiss : REQUIRED_FEATURES.filter (fun f => (data.lookup f).isNone) = [] := by
      rw [List.filter_eq_nil_iff]
      intro f hf
      have h2 := hkeys f hf
      intro hcon
      rw [Option.isNone_iff_eq_none] at hcon
      rw [hcon] at h2
      simp at h2
    have hr : data.filterMap (fun p =>
        match FEATURE_RANGES.lookup p.1 with
        | some (lo, hi) =>
          if lo ≤ p.2 ∧ p.2 ≤ hi then none
          else some (p.1 ++ " = " ++ toString p.2 ++ " is outside valid range [" ++
            toString lo ++ ", " ++ toString hi ++ "]")
        | none => none) = [] := by
      rw [List.filterMap_eq_nil_iff]
      intro p hp
      have h3 := hrange p hp
      cases hl : FEATURE_RANGES.lookup p.1 with
      | none => simp
      | some b =>
        obtain ⟨lo, hi⟩ := b
        rw [hl] at h3
        simp only [Option.all_some, decide_eq_true_eq] at h3
        simp only
        rw [if_pos h3]
    rw [hmiss, hr]
    simp
  · intro data f hf hnone
    have hfm : f ∈ REQUIRED_FEATURES.filter (fun g => (data.lookup g).isNone) :=
      List.mem_filter.mpr ⟨hf, by simp [hnone]⟩
    have hne : (REQUIRED_FEATURES.filter (fun g => (data.lookup g).isNone)).isEmpty = false := by
      cases hm : REQUIRED_FEATURES.filter (fun g => (data.lookup g).isNone) with
      | nil => rw [hm] at hfm; simp at hfm
      | cons a b => rfl
    constructor
    · simp only [validate_input, hne, Bool.false_eq_true, if_false]
      simp
    · simp only [validate_input, hne, Bool.false_eq_true, if_false]
      refine ⟨"Missing features: " ++
        joinComma (REQUIRED_FEATURES.filter (fun g => (data.lookup g).isNone)), by simp, ?_⟩
      obtain ⟨p, q, hpq⟩ :=
        joinComma_contains (REQUIRED_FEATURES.filter (fun g => (data.lookup g).isNone)) f hfm
      exact ⟨("Missing features: " : String).data ++ p, q,
        by simp [String.data_append, hpq, List.append_assoc]⟩

/-- C6 witness: the complete in-range sample vector validates cleanly; with
its first key removed, validation fails naming that key. -/
theorem C6_witness :
    validate_input sampleVector = (true, []) ∧
    (validate_input sampleVector.tail).1 = false ∧
    ∃ msg ∈ (validate_input sampleVector.tail).2, strContains msg "Screen_time_h" :=
  ⟨C6_validate.1 sampleVector (by decide) (by decide),
   (C6_validate.2 sampleVector.tail "Screen_time_h" (by decide) (by decide)).1,
   (C6_validate.2 sampleVector.tail "Screen_time_h" (by decide) (by decide)).2⟩

end Migraine

namespace Migraine

/-- Risk-level discretization of `MigrainePredictionSystem.predict_from_dict`
(`predict.py`, lines 98-113). -/
def predict_from_dict_risk_level (percentage : ℚ) : String :=
  if percentage < 20 then "Very Low"
  else if percentage < 40 then "Low"
  else if percentage < 60 then "Moderate"
  else if percentage < 80 then "High"
  else "Very High"

/-- Risk-level field of `check_migraine_risk_from_survey`
(`surveyModelGet.py`, line 182): a three-way mapping, not the five-way
Variant B. -/
def survey_risk_level (probability_percentage : ℚ) : String :=
  if probability_percentage < 40 then "low"
  else if probability_percentage < 60 then "medium"
  else "high"

/-- C9 counterexample: at probability 10 the sensor path reports "Very Low"
(Variant B) while the survey path reports "low" from its own three-way
mapping, so Variant B is not exposed consistently across both paths. -/
theorem C9_counterexample :
    risk_level 10 = "Very Low" ∧ survey_risk_level 10 = "low" ∧
    survey_risk_level 10 ≠ "Very Low" := by
  have hs : survey_risk_level 10 = "low" := by norm_num [survey_risk_level]
  refine ⟨by norm_num [risk_level], hs, ?_⟩
  rw [hs]
  decide

/-- C9 (amended): the two sensor prediction paths both use Variant B
(< 20 Very Low, < 40 Low, < 60 Moderate, < 80 High, else Very High), but the
survey path uses its own three-way mapping ("low" iff p < 40, "medium" iff
40 ≤ p < 60, "high" iff p ≥ 60). -/
theorem C9_amended :
    ∀ p : ℚ,
      ((risk_level p = "Very Low" ↔ p < 20) ∧
       (risk_level p = "Low" ↔ 20 ≤ p ∧ p < 40) ∧
       (risk_level p = "Moderate" ↔ 40 ≤ p ∧ p < 60) ∧
       (risk_level p = "High" ↔ 60 ≤ p ∧ p < 80) ∧
       (risk_level p = "Very High" ↔ 80 ≤ p)) ∧
      (predict_from_dict_risk_level p = risk_level p) ∧
      ((survey_risk_level p = "low" ↔ p < 40) ∧
       (survey_risk_level p = "medium" ↔ 40 ≤ p ∧ p < 60) ∧
       (survey_risk_level p = "high" ↔ 60 ≤ p)) := by
  intro p
  unfold risk_level predict_from_dict_risk_level survey_risk_level
  split_ifs with h1 h2 h3 h4 <;>
    refine ⟨⟨?_, ?_, ?_, ?_, ?_⟩, rfl, ?_, ?_, ?_⟩ <;> simp
  all_goals first
    | linarith
    | (constructor <;> linarith)
    | (intro h5; linarith)

/-- C9 witness: the amended characterization applied at probability 10. -/
theorem C9_witness : risk_level 10 = "Very Low" ∧ survey_risk_level 10 = "low" :=
  ⟨((C9_amended 10).1.1).mpr (by norm_num), ((C9_amended 10).2.2.1).mpr (by norm_num)⟩

end Migraine

namespace Migraine

/-- JSON-like Python values moved between the route and the two prediction
streams. -/
inductive PyVal where
  | pnone
  | pnum (q : ℚ)
  | pstr (s : String)
  | plist (xs : List PyVal)
  | pdict (kvs : List (String × PyVal))

/-- Python `v is None`. -/
def PyVal.isNone : PyVal → Bool
  | .pnone => true
  | _ => false

/-- Python truthiness of a value. -/
def PyVal.truthy : PyVal → Bool
  | .pnone => false
  | .pnum q => q != 0
  | .pstr s => s != ""
  | .plist xs => !xs.isEmpty
  | .pdict kvs => !kvs.isEmpty

/-- Python `float(v)` on the numeric payloads the streams produce; a
non-numeric value raises in Python, which the caller models as the
conversion-failure branch. -/
def PyVal.toFloat? : PyVal → Option ℚ
  | .pnum q => some q
  | _ => none

/-- Python `str(v)`.  Faithful on strings and `None`, which are the only
payloads the route ever formats; other shapes get a placeholder. -/
def pyStr : PyVal → String
  | .pstr s => s
  | .pnone => "None"
  | .pnum q => toString q
  | .plist _ => "list"
  | .pdict _ => "dict"

/-- Python `d.get(k)` (default `None`). -/
def dget (d : List (String × PyVal)) (k : String) : PyVal := (d.lookup k).getD .pnone

/-- Python `d.get(k, default)`. -/
def dgetD (d : List (String × PyVal)) (k : String) (v : PyVal) : PyVal := (d.lookup k).getD v

/-- Whether the pattern `p` starts the list `l`. -/
def startsWithChars : List Char → List Char → Bool
  | [], _ => true
  | _ :: _, [] => false
  | a :: as, b :: bs => a = b && startsWithChars as bs

/-- Python `s.replace(p, r)` over character lists (all occurrences,
left to right); an empty pattern leaves the string unchanged. -/
def replaceChars (p r : List Char) : List Char → List Char
  | [] => []
  | c :: cs =>
    if p ≠ [] ∧ startsWithChars p (c :: cs) = true then
      r ++ replaceChars p r (cs.drop (p.length - 1))
    else c :: replaceChars p r cs
termination_by l => l.length
decreasing_by
  · simp only [List.length_cons, List.length_drop]
    omega
  · simp only [List.length_cons]
    omega

/-- Python `s.title()` over ASCII: a cased character starts a word iff the
previous character is not alphabetic. -/
def titleChars : Bool → List Char → List Char
  | _, [] => []
  | prevAlpha, c :: cs =>
    (if c.isAlpha then (if prevAlpha then c.toLower else c.toUpper) else c) ::
      titleChars c.isAlpha cs

/-- Python `feature_name.replace('_', ' ').title()`. -/
def underscoreTitle (s : String) : String :=
  String.mk (titleChars false (s.data.map (fun c => if c = '_' then ' ' else c)))

/-- The `feature_mapping` table of `get_migraine_data`
(`routes.py`, lines 262-293). -/
def feature_mapping : List (String × String) :=
  [("stress", "Stress"),
   ("sleep_deprivation", "Sleep deprivation"),
   ("fatigue", "Fatigue"),
   ("emotional_distress", "Emotional distress"),
   ("excessive_caffeine", "Excessive caffeine"),
   ("menstrual", "Hormonal changes"),
   ("irregular_meals", "Irregular meals"),
   ("excessive_alcohol", "Excessive alcohol"),
   ("excessive_noise", "Excessive noise"),
   ("excessive_smells", "Excessive smells"),
   ("travel", "Travel"),
   ("oversleep", "Oversleeping"),
   ("exercise", "Lack of exercise"),
   ("overeating", "Overeating"),
   ("excessive_smoking", "Excessive smoking"),
   ("Received_Air_Pressure_hPa", "Air pressure changes"),
   ("Sleep_h", "Sleep schedule"),
   ("Stress_level_0_100", "Stress levels"),
   ("Screen_time_h", "Screen time"),
   ("Average_heart_rate_bpm", "Heart rate"),
   ("Steps_and_activity", "Physical activity")]

/-- Function `feature_to_trigger_name` (`routes.py`, lines 262-293). -/
def feature_to_trigger_name (feature_name : String) : String :=
  if startsWithChars "user_".data feature_name.data then
    let base := String.mk (replaceChars "_std".data [] (replaceChars "_mean".data []
      (replaceChars "user_".data [] feature_name.data)))
    (feature_mapping.lookup base).getD (underscoreTitle feature_name)
  else
    (feature_mapping.lookup feature_name).getD (underscoreTitle feature_name)

/-- One call into a prediction stream: either it raises (caught by the route)
or it returns a result dict. -/
inductive StreamCall where
  | raises (msg : String)
  | returns (d : List (String × PyVal))

/-- The fused response (`MigraineDataResponse` in `routes.py`). -/
structure MigraineDataResponse where
  success : Bool
  probability : Option ℚ
  reason1 : Option String
  reason2 : Option String
  error : Option String
deriving DecidableEq

/-- Reading `reason1` from the sensor result dict (`routes.py`,
lines 309-313): set only when the value is truthy. -/
def sensor_reason1_of (sensor_result : List (String × PyVal)) : Option String :=
  let sensor_reason1 := dget sensor_result "reason1"
  if sensor_reason1.truthy then some (pyStr sensor_reason1) else none

/-- The sensor half of `get_migraine_data` (`routes.py`, lines 296-320):
returns the collected probabilities, collected error strings, and `reason1`. -/
def sensor_branch : StreamCall → List ℚ × List String × Option String
  | .raises e => ([], ["Sensor model: " ++ e], none)
  | .returns sensor_result =>
    if (sensor_result.lookup "error").isSome then
      ([], ["Sensor model: " ++ pyStr (dgetD sensor_result "error" (.pstr "Unknown error"))],
       none)
    else
      let sensor_probability := dget sensor_result "probability"
      if !sensor_probability.isNone then
        match sensor_probability.toFloat? with
        | some q => ([q], [], sensor_reason1_of sensor_result)
        | none => ([], ["Sensor model: float conversion failed"], none)
      else
        ([], ["Sensor model: Probability not found in result"], sensor_reason1_of sensor_result)

/-- Extracting one feature name from a `top_features` entry (`routes.py`,
lines 344-355): the `feature` entry with empty-string default for dicts,
the string form otherwise. -/
def top_feature_name : PyVal → String
  | .pdict kv => pyStr (dgetD kv "feature" (.pstr ""))
  | other => pyStr other

/-- Reading `reason2` from the survey result dict (`routes.py`,
lines 334-355): the `reason2` field if truthy, else the 2nd-ranked
`top_features` entry, else the 1st if only one exists. -/
def survey_reason2_of (survey_result : List (String × PyVal)) : Option String :=
  let survey_reason2 := dget survey_result "reason2"
  if survey_reason2.truthy then some (pyStr survey_reason2)
  else
    match dgetD survey_result "top_features" (.plist []) with
    | .plist xs =>
      if xs.length ≥ 2 then
        let feature_name := top_feature_name (xs.getD 1 .pnone)
        if feature_name ≠ "" then some (feature_to_trigger_name feature_name) else none
      else if xs.length ≥ 1 then
        let feature_name := top_feature_name (xs.getD 0 .pnone)
        if feature_name ≠ "" then some (feature_to_trigger_name feature_name) else none
      else none
    | _ => none

/-- The survey half of `get_migraine_data` (`routes.py`, lines 323-362).
Note the asymmetry with the sensor half: a missing probability records no
error string. -/
def survey_branch : StreamCall → List ℚ × List String × Option String
  | .raises e => ([], ["Survey model: " ++ e], none)
  | .returns survey_result =>
    if (survey_result.lookup "error").isSome then
      ([], ["Survey model: " ++ pyStr (dgetD survey_result "error" (.pstr "Unknown error"))],
       none)
    else
      let survey_probability := dget survey_result "probability"
      if !survey_probability.isNone then
        match survey_probability.toFloat? with
        | some q => ([q], [], survey_reason2_of survey_result)
        | none => ([], ["Survey model: float conversion failed"], none)
      else
        ([], [], survey_reason2_of survey_result)

/-- Python `"; ".join(l)`. -/
def joinSemicolon : List String → String
  | [] => ""
  | [s] => s
  | s :: rest => s ++ "; " ++ joinSemicolon rest

/-- The fusion logic of `get_migraine_data` (`routes.py`, lines 256-390):
both streams are consulted independently, the mean of the successful
probabilities is returned, and a request with zero successful streams returns
a failure response whose error message joins the error strings of both streams. -/
def get_migraine_data (sensor survey : StreamCall) : MigraineDataResponse :=
  let sres := sensor_branch sensor
  let tres := survey_branch survey
  let probabilities := sres.1 ++ tres.1
  let errors := sres.2.1 ++ tres.2.1
  let reason1 := sres.2.2
  let reason2 := tres.2.2
  if probabilities.length = 0 then
    { success := false, probability := none, reason1 := none, reason2 := none,
      error := some (if errors ≠ [] then
        "No predictions available. " ++ joinSemicolon errors
      else "Both prediction systems failed.") }
  else
    { success := true,
      probability := some (probabilities.sum / (probabilities.length : ℚ)),
      reason1 := reason1, reason2 := reason2, error := none }

/-- The result dict of a successful `predict_migraine`
(`simple_predict.py`, lines 120-125): exactly four keys, no `reason1`. -/
def predict_migraine_result (user_id : ℤ) (final_prob : ℚ) : List (String × PyVal) :=
  [("user_id", PyVal.pnum (user_id : ℚ)),
   ("probability", PyVal.pnum final_prob),
   ("risk_level", PyVal.pstr (risk_level final_prob)),
   ("model_type", PyVal.pstr "personalized")]

end Migraine

namespace Migraine

/-- A stream call succeeded: it returned a dict without an `error` key and
with a numeric `probability`. -/
def streamSucceeds (c : StreamCall) (q : ℚ) : Prop :=
  ∃ d, c = StreamCall.returns d ∧ d.lookup "error" = none ∧
    d.lookup "probability" = some (PyVal.pnum q)

/-- A stream call failed with message `m`: it either raised, or returned an
error dict carrying `m`. -/
def streamFails (c : StreamCall) (m : String) : Prop :=
  c = StreamCall.raises m ∨
  ∃ d, c = StreamCall.returns d ∧ d.lookup "error" = some (PyVal.pstr m)

lemma sensor_branch_ok {d : List (String × PyVal)} {q : ℚ}
    (he : d.lookup "error" = none) (hp : d.lookup "probability" = some (PyVal.pnum q)) :
    sensor_branch (StreamCall.returns d) = ([q], [], sensor_reason1_of d) := by
  simp [sensor_branch, he, hp, dget, PyVal.isNone, PyVal.toFloat?]

lemma sensor_branch_raises (m : String) :
    sensor_branch (StreamCall.raises m) = ([], ["Sensor model: " ++ m], none) := rfl

lemma sensor_branch_errdict {d : List (String × PyVal)} {m : String}
    (he : d.lookup "error" = some (PyVal.pstr m)) :
    sensor_branch (StreamCall.returns d) = ([], ["Sensor model: " ++ m], none) := by
  simp [sensor_branch, he, dgetD, pyStr]

lemma survey_branch_ok {d : List (String × PyVal)} {q : ℚ}
    (he : d.lookup "error" = none) (hp : d.lookup "probability" = some (PyVal.pnum q)) :
    survey_branch (StreamCall.returns d) = ([q], [], survey_reason2_of d) := by
  simp [survey_branch, he, hp, dget, PyVal.isNone, PyVal.toFloat?]

lemma survey_branch_raises (m : String) :
    survey_branch (StreamCall.raises m) = ([], ["Survey model: " ++ m], none) := rfl

lemma survey_branch_errdict {d : List (String × PyVal)} {m : String}
    (he : d.lookup "error" = some (PyVal.pstr m)) :
    survey_branch (StreamCall.returns d) = ([], ["Survey model: " ++ m], none) := by
  simp [survey_branch, he, dgetD, pyStr]

lemma sensor_branch_fails {c : StreamCall} {m : String} (h : streamFails c m) :
    sensor_branch c = ([], ["Sensor model: " ++ m], none) := by
  rcases h with rfl | ⟨d, rfl, he⟩
  · rfl
  · exact sensor_branch_errdict he

lemma survey_branch_fails {c : StreamCall} {m : String} (h : streamFails c m) :
    survey_branch c = ([], ["Survey model: " ++ m], none) := by
  rcases h with rfl | ⟨d, rfl, he⟩
  · rfl
  · exact survey_branch_errdict he

/-- C3: the fusion layer treats the streams independently — if both succeed
the fused probability is the mean of the two; if exactly one succeeds, the
failure of the other stream does not abort the request and the fused
probability is the surviving value (the mean of one); if both fail, the
response is a failure whose error message contains the error messages of both
streams. -/
theorem C3_fusion_layer :
    ∀ sensor survey : StreamCall,
      (∀ p q : ℚ, streamSucceeds sensor p → streamSucceeds survey q →
        (get_migraine_data sensor survey).success = true ∧
        (get_migraine_data sensor survey).probability = some ((p + q) / 2)) ∧
      (∀ (m : String) (q : ℚ), streamFails sensor m → streamSucceeds survey q →
        (get_migraine_data sensor survey).success = true ∧
        (get_migraine_data sensor survey).probability = some q) ∧
      (∀ (p : ℚ) (m : String), streamSucceeds sensor p → streamFails survey m →
        (get_migraine_data sensor survey).success = true ∧
        (get_migraine_data sensor survey).probability = some p) ∧
      (∀ m1 m2 : String, streamFails sensor m1 → streamFails survey m2 →
        (get_migraine_data sensor survey).success = false ∧
        ∃ e, (get_migraine_data sensor survey).error = some e ∧
          strContains e m1 ∧ strContains e m2) := by
  intro sensor survey
  refine ⟨?_, ?_, ?_, ?_⟩
  · intro p q h1 h2
    obtain ⟨d1, rfl, he1, hp1⟩ := h1
    obtain ⟨d2, rfl, he2, hp2⟩ := h2
    unfold get_migraine_data
    rw [sensor_branch_ok he1 hp1, survey_branch_ok he2 hp2]
    norm_num
  · intro m q h1 h2
    obtain ⟨d2, rfl, he2, hp2⟩ := h2
    unfold get_migraine_data
    rw [sensor_branch_fails h1, survey_branch_ok he2 hp2]
    norm_num
  · intro p m h1 h2
    obtain ⟨d1, rfl, he1, hp1⟩ := h1
    unfold get_migraine_data
    rw [sensor_branch_ok he1 hp1, survey_branch_fails h2]
    norm_num
  · intro m1 m2 h1 h2
    unfold get_migraine_data
    rw [sensor_branch_fails h1, survey_branch_fails h2]
    refine ⟨rfl, "No predictions available. " ++
      joinSemicolon (["Sensor model: " ++ m1] ++ ["Survey model: " ++ m2]), rfl, ?_, ?_⟩
    · refine ⟨("No predictions available. " : String).data ++ ("Sensor model: " : String).data,
        ("; " : String).data ++ ("Survey model: " : String).data ++ m2.data, ?_⟩
      simp [joinSemicolon, String.data_append, List.append_assoc]
    · refine ⟨("No predictions available. " : String).data ++ ("Sensor model: " : String).data ++
        m1.data ++ ("; " : String).data ++ ("Survey model: " : String).data, [], ?_⟩
      simp [joinSemicolon, String.data_append, List.append_assoc]

/-- Concrete stream dicts for the fusion witnesses. -/
def sensorOkDict : List (String × PyVal) := predict_migraine_result 123 60

def surveyOkDict : List (String × PyVal) :=
  [("user_id", PyVal.pnum 123), ("probability", PyVal.pnum 40),
   ("risk_level", PyVal.pstr "medium"), ("top_features", PyVal.plist []),
   ("model_type", PyVal.pstr "survey_model"), ("data_points", PyVal.pnum 7)]

def surveyErrDict : List (String × PyVal) :=
  [("error", PyVal.pstr "No survey data found for the last 7 days"),
   ("user_id", PyVal.pnum 123)]

def sensorErrDict : List (String × PyVal) :=
  [("error", PyVal.pstr "No data found for the last 7 days"),
   ("user_id", PyVal.pnum 123)]

/-- C3 witness: the fusion theorem at concrete two-success and two-failure
calls. -/
theorem C3_witness :
    ((get_migraine_data (StreamCall.returns sensorOkDict)
        (StreamCall.returns surveyOkDict)).probability = some ((60 + 40) / 2)) ∧
    ((get_migraine_data (StreamCall.returns sensorErrDict)
        (StreamCall.returns surveyErrDict)).success = false) :=
  ⟨((C3_fusion_layer (StreamCall.returns sensorOkDict) (StreamCall.returns surveyOkDict)).1
      60 40 ⟨sensorOkDict, rfl, rfl, rfl⟩ ⟨surveyOkDict, rfl, rfl, rfl⟩).2,
   ((C3_fusion_layer (StreamCall.returns sensorErrDict) (StreamCall.returns surveyErrDict)).2.2.2
      "No data found for the last 7 days" "No survey data found for the last 7 days"
      (Or.inr ⟨sensorErrDict, rfl, rfl⟩) (Or.inr ⟨surveyErrDict, rfl, rfl⟩)).1⟩

end Migraine

namespace Migraine

/-- C4 counterexample: in the scenario where the survey stream returns an
error and the sensor stream succeeds with probability 62, `reason1` is ABSENT
in the fused response — the sensor success dict built by `predict_migraine`
has no `reason1` key, so the route, reading `reason1` from the sensor result
dict, gets `None` — refuting the claim that reason1 is present. -/
theorem C4_counterexample :
    (get_migraine_data (StreamCall.returns (predict_migraine_result 123 62))
        (StreamCall.returns surveyErrDict)).reason1 = none ∧
    (predict_migraine_result 123 62).lookup "reason1" = none := by
  constructor
  · unfold get_migraine_data
    rw [sensor_branch_ok (d := predict_migraine_result 123 62) rfl rfl,
      survey_branch_errdict (d := surveyErrDict) rfl]
    simp [sensor_reason1_of, dget, PyVal.truthy]
    rfl
  · rfl

/-- C4 (amended): when the survey stream fails and the sensor stream succeeds
with probability 62, the fused result succeeds with probability 62 (the mean
of one value) and reason2 is absent — but reason1 is ALSO absent, because the
result dict of the sensor stream carries no `reason1` key. -/
theorem C4_survey_error_scenario :
    ∀ (user_id : ℤ) (m : String) (survey : StreamCall),
      streamFails survey m →
      (get_migraine_data (StreamCall.returns (predict_migraine_result user_id 62))
          survey).success = true ∧
      (get_migraine_data (StreamCall.returns (predict_migraine_result user_id 62))
          survey).probability = some 62 ∧
      (get_migraine_data (StreamCall.returns (predict_migraine_result user_id 62))
          survey).reason2 = none ∧
      (get_migraine_data (StreamCall.returns (predict_migraine_result user_id 62))
          survey).reason1 = none := by
  intro user_id m survey hfail
  unfold get_migraine_data
  rw [sensor_branch_ok (d := predict_migraine_result user_id 62) rfl rfl,
    survey_branch_fails hfail]
  refine ⟨rfl, by norm_num, rfl, ?_⟩
  simp [sensor_reason1_of, dget, PyVal.truthy]
  rfl

/-- C4 witness: the amended scenario at a concrete survey error dict. -/
theorem C4_witness :
    (get_migraine_data (StreamCall.returns (predict_migraine_result 123 62))
        (StreamCall.returns surveyErrDict)).success = true ∧
    (get_migraine_data (StreamCall.returns (predict_migraine_result 123 62))
        (StreamCall.returns surveyErrDict)).probability = some 62 :=
  ⟨(C4_survey_error_scenario 123 "No survey data found for the last 7 days"
      (StreamCall.returns surveyErrDict) (Or.inr ⟨surveyErrDict, rfl, rfl⟩)).1,
   (C4_survey_error_scenario 123 "No survey data found for the last 7 days"
      (StreamCall.returns surveyErrDict) (Or.inr ⟨surveyErrDict, rfl, rfl⟩)).2.1⟩

end Migraine
